import Mathlib

/-!
Shallow embedding of the order-matching, stop-loss, FIFO PnL and loss-alert
logic of the paper-trading backend (`src/OMS/manage_order.py`,
`src/RMS/pnl_summary.py`, `src/RMS/alerts.py`, thread wiring in
`src/server.py`).

Modelling conventions:
* Python floats are modelled as `ℚ`.
* A Redis hash value that should be a number is modelled by `RVal`:
  either a numeric string (carrying its value) or a non-numeric string
  (on which Python's `float(...)` raises `ValueError`).
* A MongoDB document of the trade-book / trade-log collections is a
  `Doc`: one record type whose optional fields model keys that may be
  absent from the document (`trade.get(k)` returns `None` exactly when
  the field is `none`).
* Collections are lists in insertion order; `insert_one` appends,
  `find` preserves order, `update_one` / `delete_one` act on the first
  matching document.
* `datetime.utcnow().isoformat()` is an opaque timestamp string passed
  in as a parameter.
* Code paths that can raise a Python exception that is not caught by
  the function itself are modelled in `Except String`.
-/

/-- A value read from a Redis hash field that the code feeds to `float(...)`:
either a numeric string (with its numeric value) or a non-numeric string. -/
inductive RVal where
  | num (q : ℚ)
  | nonNum
deriving DecidableEq, Repr

/-- One Redis hash for an instrument, as returned by the snapshot fetch
(`fetch_all_data_strip_prefix`): an optional `price` field and an optional
`timestamp` field (the only fields the code ever reads). -/
structure SnapEntry where
  price : Option RVal
  timestamp : Option String
deriving DecidableEq, Repr

/-- Python truthiness of the hash dict: truthy iff non-empty.  Our model
carries exactly the `price` and `timestamp` fields. -/
def SnapEntry.truthy (e : SnapEntry) : Bool :=
  e.price.isSome || e.timestamp.isSome

/-- The full snapshot: instrument id (prefix-stripped Redis key) → hash. -/
abbrev Snapshot := List (String × SnapEntry)

/-- Model of `all_data.get(key)`: first binding for the key, if any. -/
def Snapshot.get (s : Snapshot) (k : String) : Option SnapEntry :=
  (s.find? (fun p => p.1 = k)).map (fun p => p.2)

/-- Model of `float(v)` on an optional hash field with `.get(field, 0)` default:
`none ↦ float(0) = 0`, numeric string ↦ its value, non-numeric string ↦
`ValueError`. -/
def floatField : Option RVal → Except String ℚ
  | none => .ok 0
  | some (RVal.num q) => .ok q
  | some RVal.nonNum => .error "ValueError"

/-- A trade-book / trade-log document.  Fields the repository ever writes;
`none` models an absent key. -/
structure Doc where
  instrument_id : Option String
  order_placement_time : Option String
  order_execution_time : Option String
  order_placement_price : Option ℚ
  order_price : Option ℚ
  order_side : Option String
  status : Option String
  stop_loss : Option ℚ
  quantity : Option ℚ
  reason : Option String
  order_placed_time : Option String
  stop_loss_execution_time : Option String
  stop_loss_execution_price : Option ℚ
deriving DecidableEq, Repr

/-- A document with every field absent; concrete documents are built by
overriding the fields the source code sets. -/
def Doc.empty : Doc :=
  { instrument_id := none, order_placement_time := none,
    order_execution_time := none, order_placement_price := none,
    order_price := none, order_side := none, status := none,
    stop_loss := none, quantity := none, reason := none,
    order_placed_time := none, stop_loss_execution_time := none,
    stop_loss_execution_price := none }

/-- The mutable persistence state: the trade-book and trade-log collections. -/
structure OMSState where
  book : List Doc
  logs : List Doc
deriving DecidableEq, Repr

/-- Model of `update_one(filter, {"$set": patch})`: patch the first matching document. -/
def updateFirst (p : Doc → Bool) (f : Doc → Doc) : List Doc → List Doc
  | [] => []
  | d :: ds => if p d then f d :: ds else d :: updateFirst p f ds

/-- Model of `delete_one(filter)`: remove the first matching document. -/
def deleteFirst (p : Doc → Bool) : List Doc → List Doc
  | [] => []
  | d :: ds => if p d then ds else d :: deleteFirst p ds

/-- The result dict returned by `place_order_if_price_match`. -/
structure OrderResult where
  status : String
  instrument_id : String
  order_placement_time : String
  order_execution_time : Option String
  order_placement_price : Option ℚ
  order_price : ℚ
  order_side : String
  stop_loss : Option ℚ
deriving DecidableEq, Repr

/-- Model of `float(instrument_data.get("price", 0))` wrapped in
`try/except (TypeError, ValueError): redis_price = 0.0`. -/
def placeOrderPrice (d : SnapEntry) : ℚ :=
  match floatField d.price with
  | .ok q => q
  | .error _ => 0

/-- Model of `place_order_if_price_match` (src/OMS/manage_order.py).  Looks the
instrument up in the snapshot; if present (truthy) and the snapshot price is
within the tolerance of 1 of the requested price the order fills at the
snapshot price, appending one document to the trade-book and one to the
trade-log; otherwise only a trade-log entry is written. -/
def place_order_if_price_match (instrument_id : String) (price : ℚ)
    (order_side : String) (stop_loss : Option ℚ) (snap : Snapshot)
    (st : OMSState) (placement_time : String) : OrderResult × OMSState :=
  let price_tolerance : ℚ := 1
  match Snapshot.get snap instrument_id with
  | some instrument_data =>
    if instrument_data.truthy then
      let redis_price := placeOrderPrice instrument_data
      if |redis_price - price| ≤ price_tolerance then
        let execution_time := placement_time
        let order_doc : Doc :=
          { Doc.empty with
            instrument_id := some instrument_id,
            order_placement_time := some placement_time,
            order_execution_time := some execution_time,
            order_placement_price := some redis_price,
            order_price := some price,
            order_side := some order_side,
            stop_loss := stop_loss }
        let log_doc : Doc := { order_doc with status := some "filled" }
        ({ status := "order placed", instrument_id := instrument_id,
           order_placement_time := placement_time,
           order_execution_time := some execution_time,
           order_placement_price := some redis_price,
           order_price := price, order_side := order_side,
           stop_loss := stop_loss },
         { book := st.book ++ [order_doc], logs := st.logs ++ [log_doc] })
      else
        let log_doc : Doc :=
          { Doc.empty with
            instrument_id := some instrument_id,
            order_placement_time := some placement_time,
            order_execution_time := none,
            status := some "price not matched",
            order_placement_price := some redis_price,
            order_price := some price,
            order_side := some order_side,
            stop_loss := stop_loss }
        ({ status := "price not matched", instrument_id := instrument_id,
           order_placement_time := placement_time,
           order_execution_time := none,
           order_placement_price := some redis_price,
           order_price := price, order_side := order_side,
           stop_loss := stop_loss },
         { book := st.book, logs := st.logs ++ [log_doc] })
    else
      let log_doc : Doc :=
        { Doc.empty with
          instrument_id := some instrument_id,
          order_placement_time := some placement_time,
          order_execution_time := none,
          status := some "not filled",
          order_placement_price := none,
          order_price := some price,
          order_side := some order_side,
          stop_loss := stop_loss }
      ({ status := "instrument not found", instrument_id := instrument_id,
         order_placement_time := placement_time,
         order_execution_time := none, order_placement_price := none,
         order_price := price, order_side := order_side,
         stop_loss := stop_loss },
       { book := st.book, logs := st.logs ++ [log_doc] })
  | none =>
    let log_doc : Doc :=
      { Doc.empty with
        instrument_id := some instrument_id,
        order_placement_time := some placement_time,
        order_execution_time := none,
        status := some "not filled",
        order_placement_price := none,
        order_price := some price,
        order_side := some order_side,
        stop_loss := stop_loss }
    ({ status := "instrument not found", instrument_id := instrument_id,
       order_placement_time := placement_time,
       order_execution_time := none, order_placement_price := none,
       order_price := price, order_side := order_side,
       stop_loss := stop_loss },
     { book := st.book, logs := st.logs ++ [log_doc] })

/-- The find filter of the re-check pass:
`{"status": "price not matched"}`. -/
def pendingFilterb (d : Doc) : Bool :=
  d.status == some "price not matched"

/-- The result dict of `pending_list_orders`. -/
structure PendingResult where
  status : String
  orders : List Doc
deriving DecidableEq, Repr

/-- The per-order body of the `pending_list_orders` loop
(src/OMS/manage_order.py): threads the store state and the `filled_orders`
accumulator through the list of pending log records fetched before the loop.
`float(live_info.get("price", 0))` there is not wrapped in `try/except`, so a
non-numeric live price propagates as an error. -/
def pendingLoop (snap : Snapshot) (now : String) :
    List Doc → OMSState → List Doc → Except String (OMSState × List Doc)
  | [], st, filled => .ok (st, filled)
  | o :: os, st, filled =>
    let instrument_id := o.instrument_id
    let order_price := o.order_price.getD 0
    match Snapshot.get snap (instrument_id.getD "None") with
    | some live_info =>
      if live_info.truthy then
        match floatField live_info.price with
        | .error e => .error e
        | .ok live_price =>
          if |live_price - order_price| ≤ 1 then
            let logs' := updateFirst
              (fun d => d.instrument_id == instrument_id &&
                        d.order_placement_time == o.order_placement_time &&
                        d.status == some "price not matched")
              (fun d =>
                { d with
                  status := some "filled",
                  order_execution_time := some now,
                  order_placement_price := some live_price })
              st.logs
            let trade_book_doc : Doc :=
              { Doc.empty with
                instrument_id := instrument_id,
                order_placement_time := o.order_placement_time,
                order_execution_time := some now,
                order_placement_price := some live_price,
                order_price := some order_price,
                order_side := o.order_side,
                stop_loss := o.stop_loss }
            let o' :=
              { o with
                status := some "filled",
                order_execution_time := some now }
            pendingLoop snap now os
              { book := st.book ++ [trade_book_doc], logs := logs' }
              (filled ++ [o'])
          else
            pendingLoop snap now os st filled
      else pendingLoop snap now os st filled
    | none => pendingLoop snap now os st filled

/-- Model of `pending_list_orders` (src/OMS/manage_order.py): re-checks every trade-log
record with status `price not matched` against the current snapshot; a record
now within tolerance is updated in place to `filled` (with the current
snapshot price as execution price) and materialized as a trade-book entry. -/
def pending_list_orders (snap : Snapshot) (st : OMSState) (now : String) :
    Except String (PendingResult × OMSState) :=
  let not_filled_orders := st.logs.filter pendingFilterb
  if not_filled_orders = [] then
    .ok ({ status := "no pending orders to check", orders := [] }, st)
  else
    match pendingLoop snap now not_filled_orders st [] with
    | .error e => .error e
    | .ok (st', filled) =>
      if filled = [] then
        .ok ({ status := "no order has been filled", orders := [] }, st')
      else
        .ok ({ status := "order(s) filled", orders := filled }, st')

/-- The result dict of `implement_stop_loss`; fields other than `status` are
only present on a trigger. -/
structure StopLossResult where
  status : String
  instrument_id : Option String
  execution_time : Option String
  execution_price : Option ℚ
deriving DecidableEq, Repr

/-- The per-order body of the `implement_stop_loss` loop
(src/OMS/manage_order.py): scans the fetched stop-loss orders and returns on
the first one whose live price is less than or equal to its stop-loss value;
the square-off document is inserted before the original entry is deleted. -/
def stopLossLoop (snap : Snapshot) (now : String) :
    List Doc → OMSState → Except String (StopLossResult × OMSState)
  | [], st =>
    .ok ({ status := "no stop loss conditions met", instrument_id := none,
           execution_time := none, execution_price := none }, st)
  | o :: os, st =>
    let instrument_id := o.instrument_id
    let stop_loss_price := o.stop_loss.getD 0
    match Snapshot.get snap (instrument_id.getD "None") with
    | some live_info =>
      if live_info.truthy then
        match floatField live_info.price with
        | .error e => .error e
        | .ok live_price =>
          if live_price ≤ stop_loss_price then
            let square_off_doc : Doc :=
              { Doc.empty with
                instrument_id := instrument_id,
                order_placement_time := some now,
                order_execution_time := some now,
                order_placement_price := some live_price,
                order_price := some live_price,
                order_side := some "sell",
                reason := some "stop loss triggered" }
            let book1 := st.book ++ [square_off_doc]
            let logs' := updateFirst
              (fun d => d.instrument_id == instrument_id &&
                        d.order_placement_time == o.order_placement_time)
              (fun d =>
                { d with
                  status := some "stop loss triggered",
                  stop_loss_execution_time := some now,
                  stop_loss_execution_price := some live_price })
              st.logs
            let book2 := deleteFirst
              (fun d => d.instrument_id == instrument_id &&
                        d.order_placement_time == o.order_placement_time)
              book1
            .ok ({ status := "stop loss triggered",
                   instrument_id := instrument_id,
                   execution_time := some now,
                   execution_price := some live_price },
                 { book := book2, logs := logs' })
          else stopLossLoop snap now os st
      else stopLossLoop snap now os st
    | none => stopLossLoop snap now os st

/-- Model of `implement_stop_loss` (src/OMS/manage_order.py): fetches the trade-book
entries carrying a (non-null) `stop_loss` field and runs the trigger scan on
them. -/
def implement_stop_loss (snap : Snapshot) (st : OMSState) (now : String) :
    Except String (StopLossResult × OMSState) :=
  let stop_loss_orders := st.book.filter (fun d => d.stop_loss.isSome)
  if stop_loss_orders = [] then
    .ok ({ status := "no active stop loss orders found", instrument_id := none,
           execution_time := none, execution_price := none }, st)
  else stopLossLoop snap now stop_loss_orders st

deriving instance DecidableEq for Except

/-- Model of Python's `str.lower()` on the ASCII strings used as order
sides. -/
def strLower (s : String) : String :=
  ⟨s.data.map (fun c => if 65 ≤ c.toNat ∧ c.toNat ≤ 90 then
    Char.ofNat (c.toNat + 32) else c)⟩

/-- Lexicographic code-point comparison of character lists, as Python's `<=`
compares the strings used as sort keys. -/
def charListLe : List Char → List Char → Bool
  | [], _ => true
  | _ :: _, [] => false
  | a :: as, b :: bs =>
    if a.toNat < b.toNat then true
    else if b.toNat < a.toNat then false
    else charListLe as bs

/-- Python string `<=` on the two sort keys. -/
def strLe (a b : String) : Bool := charListLe a.data b.data

/-- An open FIFO lot: `(entry_price, quantity)`. -/
structure Lot where
  price : ℚ
  qty : ℚ
deriving DecidableEq, Repr

/-- The `while remaining_qty > 0 and short_queue:` loop of the `buy` branch of
`calculate_mtm_pnl` (src/RMS/pnl_summary.py): drains the short queue from the
front, booking `(short_price - price) * match_qty` per match.  Returns the
realized-PnL delta, the unmatched remainder, and the remaining queue. -/
def matchShorts (price : ℚ) : ℚ → List Lot → ℚ × ℚ × List Lot
  | remaining_qty, [] => (0, remaining_qty, [])
  | remaining_qty, l :: ls =>
    if remaining_qty > 0 then
      let match_qty := min remaining_qty l.qty
      let pnl := (l.price - price) * match_qty
      if match_qty = l.qty then
        let r := matchShorts price (remaining_qty - match_qty) ls
        (pnl + r.1, r.2.1, r.2.2)
      else
        (pnl, remaining_qty - match_qty, ⟨l.price, l.qty - match_qty⟩ :: ls)
    else (0, remaining_qty, l :: ls)

/-- The `while remaining_qty > 0 and long_queue:` loop of the `sell` branch:
drains the long queue from the front, booking
`(price - long_price) * match_qty` per match. -/
def matchLongs (price : ℚ) : ℚ → List Lot → ℚ × ℚ × List Lot
  | remaining_qty, [] => (0, remaining_qty, [])
  | remaining_qty, l :: ls =>
    if remaining_qty > 0 then
      let match_qty := min remaining_qty l.qty
      let pnl := (price - l.price) * match_qty
      if match_qty = l.qty then
        let r := matchLongs price (remaining_qty - match_qty) ls
        (pnl + r.1, r.2.1, r.2.2)
      else
        (pnl, remaining_qty - match_qty, ⟨l.price, l.qty - match_qty⟩ :: ls)
    else (0, remaining_qty, l :: ls)

/-- The per-instrument accumulator of the FIFO loop: realized PnL so far and
the two lot queues. -/
structure FifoState where
  realized : ℚ
  longs : List Lot
  shorts : List Lot
deriving DecidableEq, Repr

/-- One iteration of `for trade in instrument_trades:` in `calculate_mtm_pnl`:
`side = trade.get('order_side')` (calling `.lower()` on a missing side raises),
`price = float(trade.get('order_price', 0.0))`,
`qty = float(trade.get('quantity', 1.0))`; a buy matches against the short
queue with the leftover appended to the long queue, a sell symmetrically; an
unknown side is skipped. -/
def fifoStep (st : FifoState) (t : Doc) : Except String FifoState :=
  match t.order_side with
  | none => .error "AttributeError: NoneType has no attribute lower"
  | some side =>
    let price := t.order_price.getD 0
    let qty := t.quantity.getD 1
    if strLower side = "buy" then
      let r := matchShorts price qty st.shorts
      let longs' := if r.2.1 > 0 then st.longs ++ [⟨price, r.2.1⟩] else st.longs
      .ok { realized := st.realized + r.1, longs := longs', shorts := r.2.2 }
    else if strLower side = "sell" then
      let r := matchLongs price qty st.longs
      let shorts' := if r.2.1 > 0 then st.shorts ++ [⟨price, r.2.1⟩] else st.shorts
      .ok { realized := st.realized + r.1, longs := r.2.2, shorts := shorts' }
    else .ok st

/-- The whole `for trade in instrument_trades:` loop. -/
def fifoLoop : List Doc → FifoState → Except String FifoState
  | [], st => .ok st
  | t :: ts, st =>
    match fifoStep st t with
    | .error e => .error e
    | .ok st' => fifoLoop ts st'

/-- Insert a document into a list already sorted by the `order_placed_time`
key, after every document with a key less than or equal to its own (so that
repeated insertion is a stable sort, as Python's `list.sort` is). -/
def insertSorted (d : Doc) : List Doc → List Doc
  | [] => [d]
  | x :: xs =>
    if strLe (x.order_placed_time.getD "") (d.order_placed_time.getD "") then
      x :: insertSorted d xs
    else d :: x :: xs

/-- Stable sort by the `order_placed_time` key. -/
def stableSortByPlacedTime (l : List Doc) : List Doc :=
  l.foldl (fun acc d => insertSorted d acc) []

/-- Model of `instrument_trades.sort(key=lambda x: x['order_placed_time'])`
(src/RMS/pnl_summary.py line 33): Python evaluates the key on every element
before comparing, so a document without the `order_placed_time` field raises
`KeyError`; otherwise the sort is stable. -/
def sortByPlacedTime (l : List Doc) : Except String (List Doc) :=
  if l.all (fun d => d.order_placed_time.isSome) then
    .ok (stableSortByPlacedTime l)
  else .error "KeyError: order_placed_time"

/-- Model of `trades_by_instrument.setdefault(inst, []).append(trade)`: append the
document to its instrument's group, keeping first-seen key order. -/
def insertGroup : List (String × List Doc) → String → Doc → List (String × List Doc)
  | [], k, d => [(k, [d])]
  | (k', ds) :: rest, k, d =>
    if k' = k then (k', ds ++ [d]) :: rest
    else (k', ds) :: insertGroup rest k d

/-- The grouping pass of `calculate_mtm_pnl`: documents with a missing
`instrument_id` are skipped; groups appear in first-seen order and keep the
collection order of their documents. -/
def groupByInstrument (trades : List Doc) : List (String × List Doc) :=
  trades.foldl
    (fun acc t =>
      match t.instrument_id with
      | none => acc
      | some k => insertGroup acc k t) []

/-- Floor of a rational, computed by floor division of numerator by
denominator. -/
def floorQ (q : ℚ) : ℤ := Int.fdiv q.num q.den

/-- Python's `round(x, 2)` (round half to even at two decimals), on exact
rationals. -/
def round2 (q : ℚ) : ℚ :=
  let c := q * 100
  let f := floorQ c
  let r : ℚ := c - f
  let n : ℤ :=
    if r < 1/2 then f
    else if r > 1/2 then f + 1
    else if f % 2 = 0 then f else f + 1
  (n : ℚ) / 100

/-- The live-price extraction of `calculate_mtm_pnl`: `live_data.get(inst)`,
`None` for a falsy entry, otherwise `float(live_entry["price"])` with a bare
`except` turning a missing or non-numeric price into `None`. -/
def pnlLivePrice (snap : Snapshot) (inst : String) : Option ℚ :=
  match Snapshot.get snap inst with
  | none => none
  | some e =>
    if e.truthy then
      match e.price with
      | some (RVal.num q) => some q
      | _ => none
    else none

/-- The unrealized-PnL block of `calculate_mtm_pnl`: `None` without a live
price, otherwise `(live - entry) * qty` summed over long lots plus
`(entry - live) * qty` summed over short lots. -/
def unrealizedOf (live_price : Option ℚ) (f : FifoState) : Option ℚ :=
  match live_price with
  | none => none
  | some lp =>
    let u := f.longs.foldl (fun acc l => acc + (lp - l.price) * l.qty) 0
    some (f.shorts.foldl (fun acc l => acc + (l.price - lp) * l.qty) u)

/-- The per-instrument entry of the `results` dict of `calculate_mtm_pnl`. -/
structure InstrumentPnl where
  realized_pnl : ℚ
  unrealized_pnl : Option ℚ
  mtm_pnl : Option ℚ
  live_price : Option ℚ
  open_long_positions : List Lot
  open_short_positions : List Lot
deriving DecidableEq, Repr

/-- The body of `for instrument_id, instrument_trades in ...` in
`calculate_mtm_pnl`: sort the group (which may raise), run the FIFO loop
(which may raise), compute unrealized and MTM PnL.  Returns the raw
(unrounded) realized and unrealized values used by the aggregate accumulators
together with the reported entry. -/
def instGroupCompute (snap : Snapshot) (g : String × List Doc) :
    Except String (ℚ × Option ℚ × InstrumentPnl) :=
  match sortByPlacedTime g.2 with
  | .error e => .error e
  | .ok sorted =>
    match fifoLoop sorted { realized := 0, longs := [], shorts := [] } with
    | .error e => .error e
    | .ok f =>
      let live_price := pnlLivePrice snap g.1
      let unrealized_pnl := unrealizedOf live_price f
      let mtm := f.realized + unrealized_pnl.getD 0
      .ok (f.realized, unrealized_pnl,
        { realized_pnl := round2 f.realized,
          unrealized_pnl := unrealized_pnl.map round2,
          mtm_pnl :=
            match unrealized_pnl with
            | none => none
            | some _ => some (round2 mtm),
          live_price := live_price,
          open_long_positions := f.longs,
          open_short_positions := f.shorts })

/-- Run `instGroupCompute` over every group in order, stopping at the first
error (exactly as the Python loop would propagate the exception). -/
def rowsCompute (snap : Snapshot) :
    List (String × List Doc) →
    Except String (List (String × ℚ × Option ℚ × InstrumentPnl))
  | [] => .ok []
  | g :: gs =>
    match instGroupCompute snap g with
    | .error e => .error e
    | .ok r =>
      match rowsCompute snap gs with
      | .error e => .error e
      | .ok rs => .ok ((g.1, r) :: rs)

/-- The value returned by `calculate_mtm_pnl`: the per-instrument entries (in
group order) and the `_overall` summary. -/
structure PnlOutput where
  results : List (String × InstrumentPnl)
  total_realized_pnl : ℚ
  total_unrealized_pnl : ℚ
  overall_mtm_pnl : ℚ
deriving DecidableEq, Repr

/-- Model of `calculate_mtm_pnl` (src/RMS/pnl_summary.py): group the trade-book by
instrument, process each group (sort, FIFO match, unrealized/MTM), and
aggregate `total_realized += realized_pnl` always and
`total_unrealized += unrealized_pnl` only when it is not `None`; the overall
unrealized and MTM figures fall back to `0.0` when there are no groups. -/
def calculate_mtm_pnl (trades : List Doc) (snap : Snapshot) :
    Except String PnlOutput :=
  let groups := groupByInstrument trades
  match rowsCompute snap groups with
  | .error e => .error e
  | .ok rows =>
    let total_realized := rows.foldl (fun acc r => acc + r.2.1) 0
    let total_unrealized := rows.foldl
      (fun acc r =>
        match r.2.2.1 with
        | some v => acc + v
        | none => acc) 0
    .ok { results := rows.map (fun r => (r.1, r.2.2.2)),
          total_realized_pnl := round2 total_realized,
          total_unrealized_pnl :=
            if groups = [] then 0 else round2 total_unrealized,
          overall_mtm_pnl :=
            if groups = [] then 0
            else round2 (total_realized + total_unrealized) }

/-- One alert record as written to `loss_alerts.json` by `check_trade_losses`
(src/RMS/alerts.py). -/
structure AlertRec where
  trade_id : String
  instrument_id : String
  order_side : String
  order_price : ℚ
  current_price : ℚ
  loss_pct : ℚ
  order_placed_time : Option String
  market_timestamp : Option String
  alert_time_utc : String
deriving DecidableEq, Repr

/-- The `for trade in cursor:` loop of `check_trade_losses`
(src/RMS/alerts.py).  Each trade-book document is paired with its stringified
Mongo `_id` (the trade identifier).  Skips already-alerted ids, instruments
absent from the market data, and trades whose `order_price` or live price is
missing or non-numeric; computes the side-dependent loss percentage (the
division is unguarded, so a zero `order_price` raises); alerts when it
exceeds the threshold, adding the id to the alerted set. -/
def alertLoop (snap : Snapshot) (threshold_pct : ℚ) (now : String) :
    List (String × Doc) → List String → List AlertRec →
    Except String (List AlertRec × List String)
  | [], alerted, alerts => .ok (alerts, alerted)
  | (trade_id, trade) :: rest, alerted, alerts =>
    if trade_id ∈ alerted then alertLoop snap threshold_pct now rest alerted alerts
    else
      match trade.instrument_id with
      | none => alertLoop snap threshold_pct now rest alerted alerts
      | some instr =>
        match Snapshot.get snap instr with
        | none => alertLoop snap threshold_pct now rest alerted alerts
        | some entry =>
          match trade.order_price with
          | none => alertLoop snap threshold_pct now rest alerted alerts
          | some order_price =>
            match entry.price with
            | some (RVal.num current_price) =>
              let side := strLower (trade.order_side.getD "")
              if side = "buy" ∨ side = "sell" then
                if order_price = 0 then .error "ZeroDivisionError"
                else
                  let loss_pct :=
                    if side = "buy" then
                      (order_price - current_price) / order_price * 100
                    else (current_price - order_price) / order_price * 100
                  if loss_pct > threshold_pct then
                    let alert : AlertRec :=
                      { trade_id := trade_id, instrument_id := instr,
                        order_side := side, order_price := order_price,
                        current_price := current_price,
                        loss_pct := round2 loss_pct,
                        order_placed_time := trade.order_placed_time,
                        market_timestamp := entry.timestamp,
                        alert_time_utc := now }
                    alertLoop snap threshold_pct now rest
                      (alerted ++ [trade_id]) (alerts ++ [alert])
                  else alertLoop snap threshold_pct now rest alerted alerts
              else alertLoop snap threshold_pct now rest alerted alerts
            | _ => alertLoop snap threshold_pct now rest alerted alerts

/-- Model of `check_trade_losses(redis_client, trade_book_coll, threshold_pct,
alerted_ids, ...)`: scan the book once; returns the alerts written during the
scan and the final alerted-id set. -/
def check_trade_losses (snap : Snapshot) (book : List (String × Doc))
    (threshold_pct : ℚ) (alerted_ids : List String) (now : String) :
    Except String (List AlertRec × List String) :=
  alertLoop snap threshold_pct now book alerted_ids []

/-- Two successive iterations of `alert_thread` (src/server.py): each cycle
calls `check_trade_losses(redis_client, trade_book_collection)` with the
`alerted_ids` argument left at its default, so every scan starts from a fresh
empty alerted set; the returned set is discarded.  Returns all alert records
written across the two scans of an unchanged book and snapshot. -/
def alertThreadTwoScans (snap : Snapshot) (book : List (String × Doc))
    (t1 t2 : String) : Except String (List AlertRec) :=
  match check_trade_losses snap book 1 [] t1 with
  | .error e => .error e
  | .ok (alerts1, _) =>
    match check_trade_losses snap book 1 [] t2 with
    | .error e => .error e
    | .ok (alerts2, _) => .ok (alerts1 ++ alerts2)

/-- The same two scans with the alerted set threaded from the first scan into
the second, i.e. the persistent-set behavior `check_trade_losses` supports
through its `alerted_ids` parameter and return value. -/
def alertThreadTwoScansThreaded (snap : Snapshot) (book : List (String × Doc))
    (t1 t2 : String) : Except String (List AlertRec) :=
  match check_trade_losses snap book 1 [] t1 with
  | .error e => .error e
  | .ok (alerts1, ids1) =>
    match check_trade_losses snap book 1 ids1 t2 with
    | .error e => .error e
    | .ok (alerts2, _) => .ok (alerts1 ++ alerts2)

/-- Written from the spec's words for the FIFO matching step: a trade of
quantity `q` "drains the lot queue head-first (oldest lot first), booking
`pnlOfEntry(entry price) × matched quantity` per match", partially consuming
a head lot larger than the remaining quantity and stopping when the quantity
is exhausted or the queue is empty.  Returns the booked realized PnL, the
unmatched remainder and the remaining queue. -/
def fifoMatchSpec (pnlOfEntry : ℚ → ℚ) : ℚ → List Lot → ℚ × ℚ × List Lot
  | q, [] => (0, q, [])
  | q, l :: ls =>
    if q ≤ 0 then (0, q, l :: ls)
    else if q < l.qty then
      (pnlOfEntry l.price * q, 0, ⟨l.price, l.qty - q⟩ :: ls)
    else
      let r := fifoMatchSpec pnlOfEntry (q - l.qty) ls
      (pnlOfEntry l.price * l.qty + r.1, r.2.1, r.2.2)

/-- Numeric value the code obtains from `float(v)` on a field that is absent
(default `0`) or numeric; the non-numeric case (which raises) is mapped to an
arbitrary `0` and is excluded wherever this helper is used. -/
def numValOf : Option RVal → ℚ
  | none => 0
  | some (RVal.num q) => q
  | some RVal.nonNum => 0

/-- The identifying key the re-check and stop-loss passes filter on. -/
def docKey (d : Doc) : Option String × Option String :=
  (d.instrument_id, d.order_placement_time)

/-- Whether the re-check pass would fill a pending order against the given
snapshot: its instrument's entry exists, is truthy, and its (numeric or
defaulted) price is within the tolerance of 1 of the order's requested
price. -/
def fillableB (snap : Snapshot) (o : Doc) : Bool :=
  match Snapshot.get snap (o.instrument_id.getD "None") with
  | none => false
  | some e =>
    e.truthy && decide (|numValOf e.price - o.order_price.getD 0| ≤ 1)

/-- Raw (unrounded) realized PnL of one instrument group, as accumulated into
`total_realized` by `calculate_mtm_pnl` (0 if the group's processing
raises). -/
def rawRealized (snap : Snapshot) (g : String × List Doc) : ℚ :=
  match instGroupCompute snap g with
  | .ok r => r.1
  | .error _ => 0

/-- Raw (unrounded) unrealized PnL of one instrument group, `none` when the
instrument has no usable live price (or the group's processing raises). -/
def rawUnrealized (snap : Snapshot) (g : String × List Doc) : Option ℚ :=
  match instGroupCompute snap g with
  | .ok r => r.2.1
  | .error _ => none

/-- A trade-book record carrying the fields the FIFO PnL engine reads,
including the `order_placed_time` sort key and an explicit quantity. -/
def pnlTrade (inst side : String) (q p : ℚ) (t : String) : Doc :=
  { Doc.empty with
    instrument_id := some inst,
    order_placed_time := some t,
    order_side := some side,
    order_price := some p,
    quantity := some q }

/-- The buy-side matching loop coincides with the head-first FIFO matching
spec with per-match PnL (short entry − buy price). -/
lemma matchShorts_eq_spec (price : ℚ) (q : List Lot) : ∀ rem,
    matchShorts price rem q = fifoMatchSpec (fun ep => ep - price) rem q := by
  induction q with
  | nil => intro rem; rfl
  | cons l ls ih =>
    intro rem
    by_cases h0 : rem > 0
    · have h0' : ¬ rem ≤ 0 := not_le.mpr h0
      by_cases h1 : rem < l.qty
      · have hmin : min rem l.qty = rem := min_eq_left h1.le
        simp [matchShorts, fifoMatchSpec, h0, h0', h1, hmin, h1.ne]
      · have hle := not_lt.mp h1
        have hmin : min rem l.qty = l.qty := min_eq_right hle
        simp [matchShorts, fifoMatchSpec, h0, h0', h1, hmin, ih]
    · have h0' : rem ≤ 0 := not_lt.mp h0
      simp [matchShorts, fifoMatchSpec, h0, h0']

/-- The sell-side matching loop coincides with the head-first FIFO matching
spec with per-match PnL (sell price − long entry). -/
lemma matchLongs_eq_spec (price : ℚ) (q : List Lot) : ∀ rem,
    matchLongs price rem q = fifoMatchSpec (fun ep => price - ep) rem q := by
  induction q with
  | nil => intro rem; rfl
  | cons l ls ih =>
    intro rem
    by_cases h0 : rem > 0
    · have h0' : ¬ rem ≤ 0 := not_le.mpr h0
      by_cases h1 : rem < l.qty
      · have hmin : min rem l.qty = rem := min_eq_left h1.le
        simp [matchLongs, fifoMatchSpec, h0, h0', h1, hmin, h1.ne]
      · have hle := not_lt.mp h1
        have hmin : min rem l.qty = l.qty := min_eq_right hle
        simp [matchLongs, fifoMatchSpec, h0, h0', h1, hmin, ih]
    · have h0' : rem ≤ 0 := not_lt.mp h0
      simp [matchLongs, fifoMatchSpec, h0, h0']

/-- C1: in the PnL engine, a buy drains the short lot queue head-first,
booking (short entry price − buy price) × matched quantity per match, with
any unmatched remainder appended to the long queue, and a sell is symmetric
against the long queue at (sell price − long entry price) × matched
quantity (both matching loops coincide with the head-first matching spec
`fifoMatchSpec`); in particular buy(qty=10, price=100) then
sell(qty=10, price=105) yields realized PnL 50 with no open lots, and
buy(qty=10, price=100) then sell(qty=4, price=110) yields realized PnL 40
with the single remaining long lot (100, 6). -/
theorem fifo_matching_correct :
    (∀ (price rem : ℚ) (q : List Lot),
        matchShorts price rem q = fifoMatchSpec (fun ep => ep - price) rem q) ∧
    (∀ (price rem : ℚ) (q : List Lot),
        matchLongs price rem q = fifoMatchSpec (fun ep => price - ep) rem q) ∧
    calculate_mtm_pnl
        [pnlTrade "I" "buy" 10 100 "t1", pnlTrade "I" "sell" 10 105 "t2"] [] =
      .ok { results := [("I",
              { realized_pnl := 50, unrealized_pnl := none, mtm_pnl := none,
                live_price := none, open_long_positions := [],
                open_short_positions := [] })],
            total_realized_pnl := 50, total_unrealized_pnl := 0,
            overall_mtm_pnl := 50 } ∧
    calculate_mtm_pnl
        [pnlTrade "I" "buy" 10 100 "t1", pnlTrade "I" "sell" 4 110 "t2"] [] =
      .ok { results := [("I",
              { realized_pnl := 40, unrealized_pnl := none, mtm_pnl := none,
                live_price := none, open_long_positions := [⟨100, 6⟩],
                open_short_positions := [] })],
            total_realized_pnl := 40, total_unrealized_pnl := 0,
            overall_mtm_pnl := 40 } :=
  ⟨fun price rem q => matchShorts_eq_spec price q rem,
   fun price rem q => matchLongs_eq_spec price q rem,
   by with_unfolding_all rfl,
   by with_unfolding_all rfl⟩

/-- Snapshot used for the C3 failing input: instrument `I1` live at 100. -/
def c3Snap : Snapshot := [("I1", { price := some (RVal.num 100), timestamp := some "ts" })]

/-- C3 (code bug): a trade-book record produced by order placement carries
`order_placement_time` but not `order_placed_time`, and the PnL
computation's sort accesses `x['order_placed_time']`, so it raises `KeyError`
instead of completing. -/
theorem pnl_raises_on_placed_records :
    (place_order_if_price_match "I1" 100 "buy" none c3Snap
        { book := [], logs := [] } "T1").2.book.all
      (fun d => d.order_placement_time.isSome) = true ∧
    calculate_mtm_pnl
        (place_order_if_price_match "I1" 100 "buy" none c3Snap
          { book := [], logs := [] } "T1").2.book [] =
      .error "KeyError: order_placed_time" :=
  ⟨by with_unfolding_all rfl, by with_unfolding_all rfl⟩

/-- C2: when the instrument is present in the snapshot with a numeric price
within the tolerance of 1 of the requested price, placement returns the
"order placed" result whose execution price is the snapshot price and whose
execution timestamp equals the placement timestamp, and appends the order to
both the trade-book and the trade-log. -/
theorem place_order_fills_within_tolerance
    (iid : String) (price q : ℚ) (side : String) (sl : Option ℚ)
    (snap : Snapshot) (st : OMSState) (t : String) (e : SnapEntry)
    (r : OrderResult) (st' : OMSState)
    (hlook : Snapshot.get snap iid = some e)
    (hnum : e.price = some (RVal.num q))
    (htol : |q - price| ≤ 1)
    (hrun : place_order_if_price_match iid price side sl snap st t = (r, st')) :
    r.status = "order placed" ∧
    r.order_placement_price = some q ∧
    r.order_placement_time = t ∧
    r.order_execution_time = some t ∧
    st'.book = st.book ++ [{ Doc.empty with
      instrument_id := some iid, order_placement_time := some t,
      order_execution_time := some t, order_placement_price := some q,
      order_price := some price, order_side := some side, stop_loss := sl }] ∧
    st'.logs = st.logs ++ [{ Doc.empty with
      instrument_id := some iid, order_placement_time := some t,
      order_execution_time := some t, order_placement_price := some q,
      order_price := some price, order_side := some side,
      status := some "filled", stop_loss := sl }] := by
  have htr : e.truthy = true := by simp [SnapEntry.truthy, hnum]
  have hpp : placeOrderPrice e = q := by simp [placeOrderPrice, hnum, floatField]
  simp only [place_order_if_price_match, hlook, htr, if_true, hpp, htol, if_pos] at hrun
  cases hrun
  refine ⟨rfl, rfl, rfl, rfl, rfl, ?_⟩
  rfl

/-- Snapshot used by the C2 witness: `A` live at 100.5. -/
def c2Snap : Snapshot :=
  [("A", { price := some (RVal.num (201/2)), timestamp := some "ts" })]

/-- Witness for C2 at snapshot price 100.5 and requested price 100. -/
theorem place_order_fills_within_tolerance_witness :
    (place_order_if_price_match "A" 100 "buy" (some 5) c2Snap
        { book := [], logs := [] } "T1").1.status = "order placed" ∧
    (place_order_if_price_match "A" 100 "buy" (some 5) c2Snap
        { book := [], logs := [] } "T1").1.order_placement_price = some (201/2) ∧
    (place_order_if_price_match "A" 100 "buy" (some 5) c2Snap
        { book := [], logs := [] } "T1").1.order_placement_time = "T1" ∧
    (place_order_if_price_match "A" 100 "buy" (some 5) c2Snap
        { book := [], logs := [] } "T1").1.order_execution_time = some "T1" ∧
    (place_order_if_price_match "A" 100 "buy" (some 5) c2Snap
        { book := [], logs := [] } "T1").2.book = [{ Doc.empty with
      instrument_id := some "A", order_placement_time := some "T1",
      order_execution_time := some "T1", order_placement_price := some (201/2),
      order_price := some 100, order_side := some "buy", stop_loss := some 5 }] ∧
    (place_order_if_price_match "A" 100 "buy" (some 5) c2Snap
        { book := [], logs := [] } "T1").2.logs = [{ Doc.empty with
      instrument_id := some "A", order_placement_time := some "T1",
      order_execution_time := some "T1", order_placement_price := some (201/2),
      order_price := some 100, order_side := some "buy",
      status := some "filled", stop_loss := some 5 }] :=
  place_order_fills_within_tolerance "A" 100 (201/2) "buy" (some 5) c2Snap
    { book := [], logs := [] } "T1"
    { price := some (RVal.num (201/2)), timestamp := some "ts" } _ _
    (by with_unfolding_all rfl) rfl (by with_unfolding_all decide) rfl

/-- C6: when the instrument is present with a numeric price outside the
tolerance, the trade-book is unchanged and exactly one trade-log entry is
created, with status "price not matched" and a null execution timestamp. -/
theorem place_order_rejects_outside_tolerance
    (iid : String) (price q : ℚ) (side : String) (sl : Option ℚ)
    (snap : Snapshot) (st : OMSState) (t : String) (e : SnapEntry)
    (r : OrderResult) (st' : OMSState)
    (hlook : Snapshot.get snap iid = some e)
    (hnum : e.price = some (RVal.num q))
    (htol : ¬ |q - price| ≤ 1)
    (hrun : place_order_if_price_match iid price side sl snap st t = (r, st')) :
    r.status = "price not matched" ∧
    r.order_execution_time = none ∧
    st'.book = st.book ∧
    st'.logs = st.logs ++ [{ Doc.empty with
      instrument_id := some iid, order_placement_time := some t,
      order_execution_time := none, status := some "price not matched",
      order_placement_price := some q, order_price := some price,
      order_side := some side, stop_loss := sl }] := by
  have htr : e.truthy = true := by simp [SnapEntry.truthy, hnum]
  have hpp : placeOrderPrice e = q := by simp [placeOrderPrice, hnum, floatField]
  simp only [place_order_if_price_match, hlook, htr, if_true, hpp, htol, if_neg,
    if_false] at hrun
  cases hrun
  exact ⟨rfl, rfl, rfl, rfl⟩

/-- Witness for C6 at snapshot price 100.5 and requested price 50. -/
theorem place_order_rejects_outside_tolerance_witness :
    (place_order_if_price_match "A" 50 "sell" none c2Snap
        { book := [], logs := [] } "T1").1.status = "price not matched" ∧
    (place_order_if_price_match "A" 50 "sell" none c2Snap
        { book := [], logs := [] } "T1").1.order_execution_time = none ∧
    (place_order_if_price_match "A" 50 "sell" none c2Snap
        { book := [], logs := [] } "T1").2.book = [] ∧
    (place_order_if_price_match "A" 50 "sell" none c2Snap
        { book := [], logs := [] } "T1").2.logs = [{ Doc.empty with
      instrument_id := some "A", order_placement_time := some "T1",
      order_execution_time := none, status := some "price not matched",
      order_placement_price := some (201/2), order_price := some 50,
      order_side := some "sell", stop_loss := none }] :=
  place_order_rejects_outside_tolerance "A" 50 (201/2) "sell" none c2Snap
    { book := [], logs := [] } "T1"
    { price := some (RVal.num (201/2)), timestamp := some "ts" } _ _
    (by with_unfolding_all rfl) rfl (by with_unfolding_all decide) rfl

/-- Snapshot used for C10: instrument `I1` present but with a non-numeric
price field. -/
def c10Snap : Snapshot := [("I1", { price := some RVal.nonNum, timestamp := some "ts" })]

/-- Counterexample to C10 as stated: with a non-numeric snapshot price the
placement does fill the order against the substitute value 0 (requested
price 0.5 is within tolerance of 0), opening a position. -/
theorem nonnumeric_price_fill_at_zero_cex :
    (place_order_if_price_match "I1" (1/2) "buy" none c10Snap
        { book := [], logs := [] } "T1").1.status = "order placed" ∧
    (place_order_if_price_match "I1" (1/2) "buy" none c10Snap
        { book := [], logs := [] } "T1").1.order_placement_price = some 0 ∧
    (place_order_if_price_match "I1" (1/2) "buy" none c10Snap
        { book := [], logs := [] } "T1").2.book.length = 1 :=
  ⟨by with_unfolding_all rfl, by with_unfolding_all rfl, by with_unfolding_all rfl⟩

/-- C10 (amended): a non-numeric (or absent) snapshot price field is coerced
to 0.0 rather than treated as absent; the placement never raises (the
embedding is total on this path), but it behaves exactly as if the snapshot
price were 0 — filling at execution price 0 when the requested price is
within tolerance of 0, and logging "price not matched" otherwise. -/
theorem nonnumeric_price_coerced_to_zero
    (iid : String) (price : ℚ) (side : String) (sl : Option ℚ)
    (snap : Snapshot) (st : OMSState) (t : String) (e : SnapEntry)
    (r : OrderResult) (st' : OMSState)
    (hlook : Snapshot.get snap iid = some e)
    (htr : e.truthy = true)
    (hbad : e.price = some RVal.nonNum ∨ e.price = none)
    (hrun : place_order_if_price_match iid price side sl snap st t = (r, st')) :
    r.order_placement_price = some 0 ∧
    r.status = (if |0 - price| ≤ (1 : ℚ) then "order placed" else "price not matched") := by
  have hpp : placeOrderPrice e = 0 := by
    rcases hbad with h | h <;> simp [placeOrderPrice, h, floatField]
  by_cases htol : |(0 : ℚ) - price| ≤ 1
  · simp only [place_order_if_price_match, hlook, htr, if_true, hpp, htol, if_pos] at hrun
    cases hrun
    exact ⟨rfl, by rw [if_pos htol]⟩
  · simp only [place_order_if_price_match, hlook, htr, if_true, hpp, htol, if_neg,
      if_false] at hrun
    cases hrun
    exact ⟨rfl, by rw [if_neg htol]⟩

/-- Witness for the amended C10 at requested price 0.5. -/
theorem nonnumeric_price_coerced_to_zero_witness :
    (place_order_if_price_match "I1" (1/2) "buy" none c10Snap
        { book := [], logs := [] } "T1").1.order_placement_price = some 0 ∧
    (place_order_if_price_match "I1" (1/2) "buy" none c10Snap
        { book := [], logs := [] } "T1").1.status =
      (if |0 - (1/2 : ℚ)| ≤ (1 : ℚ) then "order placed" else "price not matched") :=
  nonnumeric_price_coerced_to_zero "I1" (1/2) "buy" none c10Snap
    { book := [], logs := [] } "T1"
    { price := some RVal.nonNum, timestamp := some "ts" } _ _
    (by with_unfolding_all rfl) rfl (Or.inl rfl) rfl

/-- The C4 trade-book entry: a buy filled at 100 carrying stop-loss value 5. -/
def c4Doc : Doc :=
  { Doc.empty with
    instrument_id := some "I1",
    order_placement_time := some "T1",
    order_execution_time := some "T1",
    order_placement_price := some 100,
    order_price := some 100,
    order_side := some "buy",
    stop_loss := some 5 }

/-- Snapshot with `I1` live at 96 (within distance 5 of the placement price
100, so the claim as stated predicts a trigger). -/
def c4Snap96 : Snapshot := [("I1", { price := some (RVal.num 96), timestamp := some "ts" })]

/-- Snapshot with `I1` live at 3 (at or below the stop-loss value 5, so the
code does trigger). -/
def c4Snap3 : Snapshot := [("I1", { price := some (RVal.num 3), timestamp := some "ts" })]

/-- Counterexample to C4 as stated: the entry was placed at 100 with
stop-loss 5 and the live price 96 satisfies the claim's distance condition
|live − placement| ≤ stop-loss, yet the monitor does not trigger and leaves
the state unchanged, because the code compares `live_price <= stop_loss`
as an absolute price level. -/
theorem stop_loss_distance_condition_cex :
    |(96 : ℚ) - 100| ≤ 5 ∧
    implement_stop_loss c4Snap96 { book := [c4Doc], logs := [c4Doc] } "T2" =
      .ok ({ status := "no stop loss conditions met", instrument_id := none,
             execution_time := none, execution_price := none },
           { book := [c4Doc], logs := [c4Doc] }) :=
  ⟨by with_unfolding_all decide, by with_unfolding_all rfl⟩

/-- C4 (amended): for a trade-book entry carrying a stop-loss value (here
the unique such entry) whose instrument has a live numeric price, the
monitor triggers exactly when the live price is less than or equal to the
stop-loss value, treated as an absolute price level (not a distance from
the placement price); on trigger it inserts a sell at the current price
with reason "stop loss triggered", patches the originating trade-log
record's status, and deletes the originating trade-book entry. -/
theorem stop_loss_triggers_iff_at_or_below
    (snap : Snapshot) (st : OMSState) (now : String) (o : Doc) (e : SnapEntry)
    (q slv : ℚ)
    (hfilter : st.book.filter (fun d => d.stop_loss.isSome) = [o])
    (hsl : o.stop_loss = some slv)
    (hlook : Snapshot.get snap (o.instrument_id.getD "None") = some e)
    (htr : e.truthy = true)
    (hp : e.price = some (RVal.num q)) :
    (q ≤ slv →
      implement_stop_loss snap st now = .ok
        ({ status := "stop loss triggered", instrument_id := o.instrument_id,
           execution_time := some now, execution_price := some q },
         { book := deleteFirst
             (fun d => d.instrument_id == o.instrument_id &&
               d.order_placement_time == o.order_placement_time)
             (st.book ++ [{ Doc.empty with
                instrument_id := o.instrument_id,
                order_placement_time := some now,
                order_execution_time := some now,
                order_placement_price := some q,
                order_price := some q,
                order_side := some "sell",
                reason := some "stop loss triggered" }]),
           logs := updateFirst
             (fun d => d.instrument_id == o.instrument_id &&
               d.order_placement_time == o.order_placement_time)
             (fun d =>
               { d with
                 status := some "stop loss triggered",
                 stop_loss_execution_time := some now,
                 stop_loss_execution_price := some q }) st.logs })) ∧
    (¬ q ≤ slv →
      implement_stop_loss snap st now = .ok
        ({ status := "no stop loss conditions met", instrument_id := none,
           execution_time := none, execution_price := none }, st)) := by
  have hne : ([o] : List Doc) ≠ [] := by simp
  constructor
  · intro hle
    simp only [implement_stop_loss, hfilter, if_neg hne, stopLossLoop, hlook, htr,
      if_true, hp, floatField, hsl, Option.getD_some, if_pos hle]
  · intro hgt
    simp only [implement_stop_loss, hfilter, if_neg hne, stopLossLoop, hlook, htr,
      if_true, hp, floatField, hsl, Option.getD_some, if_neg hgt]

/-- Witness for the amended C4: both the trigger case (live 3 at or below
stop-loss 5) and the no-trigger case (live 96 above stop-loss 5). -/
theorem stop_loss_triggers_iff_at_or_below_witness :
    ((3 : ℚ) ≤ 5 →
      implement_stop_loss c4Snap3 { book := [c4Doc], logs := [c4Doc] } "T2" = .ok
        ({ status := "stop loss triggered", instrument_id := c4Doc.instrument_id,
           execution_time := some "T2", execution_price := some 3 },
         { book := deleteFirst
             (fun d => d.instrument_id == c4Doc.instrument_id &&
               d.order_placement_time == c4Doc.order_placement_time)
             ([c4Doc] ++ [{ Doc.empty with
                instrument_id := c4Doc.instrument_id,
                order_placement_time := some "T2",
                order_execution_time := some "T2",
                order_placement_price := some 3,
                order_price := some 3,
                order_side := some "sell",
                reason := some "stop loss triggered" }]),
           logs := updateFirst
             (fun d => d.instrument_id == c4Doc.instrument_id &&
               d.order_placement_time == c4Doc.order_placement_time)
             (fun d =>
               { d with
                 status := some "stop loss triggered",
                 stop_loss_execution_time := some "T2",
                 stop_loss_execution_price := some 3 }) [c4Doc] })) ∧
    (¬ (3 : ℚ) ≤ 5 →
      implement_stop_loss c4Snap3 { book := [c4Doc], logs := [c4Doc] } "T2" = .ok
        ({ status := "no stop loss conditions met", instrument_id := none,
           execution_time := none, execution_price := none },
         { book := [c4Doc], logs := [c4Doc] })) :=
  stop_loss_triggers_iff_at_or_below c4Snap3
    { book := [c4Doc], logs := [c4Doc] } "T2" c4Doc
    { price := some (RVal.num 3), timestamp := some "ts" } 3 5
    (by with_unfolding_all rfl) rfl (by with_unfolding_all rfl) rfl rfl

/-- The C9 trade-book document: a buy at 100. -/
def c9Doc : Doc :=
  { Doc.empty with
    instrument_id := some "I1",
    order_price := some 100,
    order_side := some "buy" }

/-- The C9 trade-book as seen by the alert engine: one trade with id `id1`. -/
def c9Book : List (String × Doc) := [("id1", c9Doc)]

/-- Snapshot with `I1` live at 90: a 10% loss on the buy at 100, above the
1% threshold. -/
def c9Snap : Snapshot := [("I1", { price := some (RVal.num 90), timestamp := some "ts" })]

/-- C9 (code bug): the same losing trade produces one alert record in each
of two successive scans of `alert_thread` (two in total over the engine's
lifetime, not one), because the thread calls `check_trade_losses` without
the `alerted_ids` argument and discards the returned set, so every scan
starts from a fresh empty alerted set; threading the set through (as the
function's parameter and return value support) would produce exactly one. -/
theorem alert_not_deduplicated_across_scans :
    (alertThreadTwoScans c9Snap c9Book "a" "b").map List.length = .ok 2 ∧
    (alertThreadTwoScansThreaded c9Snap c9Book "a" "b").map List.length = .ok 1 ∧
    (check_trade_losses c9Snap c9Book 1 [] "a").map
      (fun p => (p.1.map (fun a => a.trade_id), p.2)) = .ok (["id1"], ["id1"]) :=
  ⟨by with_unfolding_all rfl, by with_unfolding_all rfl, by with_unfolding_all rfl⟩
/-- Inversion for a successful per-instrument computation: it comes from a
FIFO state whose realized value, unrealized option and reported entry are
as built by the loop body. -/
lemma instGroupCompute_ok (snap : Snapshot) (g : String × List Doc)
    (r : ℚ × Option ℚ × InstrumentPnl)
    (h : instGroupCompute snap g = .ok r) :
    ∃ f : FifoState,
      r.1 = f.realized ∧
      r.2.1 = unrealizedOf (pnlLivePrice snap g.1) f ∧
      r.2.2 = { realized_pnl := round2 f.realized,
                unrealized_pnl := (unrealizedOf (pnlLivePrice snap g.1) f).map round2,
                mtm_pnl :=
                  match unrealizedOf (pnlLivePrice snap g.1) f with
                  | none => none
                  | some _ => some (round2 (f.realized +
                      (unrealizedOf (pnlLivePrice snap g.1) f).getD 0)),
                live_price := pnlLivePrice snap g.1,
                open_long_positions := f.longs,
                open_short_positions := f.shorts } := by
  unfold instGroupCompute at h
  split at h
  · cases h
  · split at h
    · cases h
    · cases h
      rename_i f hf
      exact ⟨f, rfl, rfl, rfl⟩

/-- Every row of a successful `rowsCompute` comes from a successful
per-instrument computation of one of the groups. -/
lemma rowsCompute_ok_mem (snap : Snapshot) :
    ∀ (gs : List (String × List Doc)) rows, rowsCompute snap gs = .ok rows →
      ∀ x ∈ rows, ∃ g, g ∈ gs ∧ g.1 = x.1 ∧ instGroupCompute snap g = .ok x.2 := by
  intro gs
  induction gs with
  | nil =>
    intro rows h x hx
    simp only [rowsCompute] at h
    cases h
    cases hx
  | cons g gs ih =>
    intro rows h x hx
    simp only [rowsCompute] at h
    split at h
    · cases h
    · rename_i r hg
      split at h
      · cases h
      · rename_i rs hrs
        cases h
        rcases List.mem_cons.mp hx with hx1 | hx2
        · exact ⟨g, List.mem_cons_self g gs, by rw [hx1], by rw [hx1]; exact hg⟩
        · obtain ⟨g2, hg2, h1, h2⟩ := ih rs hrs x hx2
          exact ⟨g2, List.mem_cons_of_mem _ hg2, h1, h2⟩

/-- The known raw unrealized values of the rows are exactly the known
per-group raw unrealized values, in order. -/
lemma rowsCompute_ok_unreal_filterMap (snap : Snapshot) :
    ∀ (gs : List (String × List Doc)) rows, rowsCompute snap gs = .ok rows →
      rows.filterMap (fun r => r.2.2.1) =
        gs.filterMap (fun g => rawUnrealized snap g) := by
  intro gs
  induction gs with
  | nil =>
    intro rows h
    simp only [rowsCompute] at h
    cases h
    rfl
  | cons g gs ih =>
    intro rows h
    simp only [rowsCompute] at h
    split at h
    · cases h
    · rename_i r hg
      split at h
      · cases h
      · rename_i rs hrs
        cases h
        have hraw : rawUnrealized snap g = r.2.1 := by
          unfold rawUnrealized
          rw [hg]
        simp only [List.filterMap_cons, hraw, ih rs hrs]

/-- The accumulator that adds only the known unrealized values equals the
sum over the known values. -/
lemma foldl_unreal_sum :
    ∀ (rows : List (String × ℚ × Option ℚ × InstrumentPnl)) (acc : ℚ),
      rows.foldl
        (fun acc r =>
          match r.2.2.1 with
          | some v => acc + v
          | none => acc) acc
      = acc + (rows.filterMap (fun r => r.2.2.1)).sum := by
  intro rows
  induction rows with
  | nil => intro acc; simp
  | cons r rs ih =>
    intro acc
    cases hr : r.2.2.1 with
    | none => simp [List.foldl_cons, hr, List.filterMap_cons, ih]
    | some v =>
      simp only [List.foldl_cons, hr, List.filterMap_cons, ih, List.sum_cons]
      ring

/-- Inversion for a successful `calculate_mtm_pnl`: its results and its
aggregate unrealized figure in terms of the computed rows. -/
lemma calculate_ok_inversion (trades : List Doc) (snap : Snapshot) (out : PnlOutput)
    (h : calculate_mtm_pnl trades snap = .ok out) :
    ∃ rows, rowsCompute snap (groupByInstrument trades) = .ok rows ∧
      out.results = rows.map (fun r => (r.1, r.2.2.2)) ∧
      out.total_unrealized_pnl =
        (if groupByInstrument trades = [] then 0
         else round2 (rows.foldl
           (fun acc r =>
             match r.2.2.1 with
             | some v => acc + v
             | none => acc) 0)) := by
  simp only [calculate_mtm_pnl] at h
  split at h
  · cases h
  · rename_i rows hr
    cases h
    exact ⟨rows, hr, rfl, rfl⟩

/-- Unrealized PnL is `none` exactly when there is no live price. -/
lemma unrealizedOf_none_iff (lp : Option ℚ) (f : FifoState) :
    unrealizedOf lp f = none ↔ lp = none := by
  cases lp <;> simp [unrealizedOf]

/-- C7: in the PnL summary an instrument's unrealized PnL is reported null
exactly when it has no usable live price and numeric when it has one, and
the aggregate unrealized PnL is the rounding of the sum of only the known
(non-null) per-instrument unrealized values — instruments whose value is
null contribute nothing to the aggregate while their per-instrument report
stays null. -/
theorem pnl_unrealized_null_vs_aggregate
    (trades : List Doc) (snap : Snapshot) (out : PnlOutput)
    (hok : calculate_mtm_pnl trades snap = .ok out) :
    (∀ i e, (i, e) ∈ out.results →
       (e.live_price = none → e.unrealized_pnl = none) ∧
       (e.live_price ≠ none → e.unrealized_pnl ≠ none)) ∧
    (groupByInstrument trades ≠ [] →
       out.total_unrealized_pnl =
         round2 (((groupByInstrument trades).filterMap
           (fun g => rawUnrealized snap g)).sum)) := by
  obtain ⟨rows, hrows, hres, htot⟩ := calculate_ok_inversion trades snap out hok
  constructor
  · intro i e hmem
    rw [hres] at hmem
    obtain ⟨x, hx, hxe⟩ := List.mem_map.mp hmem
    injection hxe with hi he
    obtain ⟨g, hgmem, hgi, hgok⟩ := rowsCompute_ok_mem snap _ rows hrows x hx
    obtain ⟨f, h1, h2, h3⟩ := instGroupCompute_ok snap g x.2 hgok
    subst he
    rw [h3]
    constructor
    · intro hnone
      simp only at hnone
      rw [(unrealizedOf_none_iff _ f).mpr hnone]
      rfl
    · intro hsome
      simp only at hsome ⊢
      intro hcon
      rw [Option.map_eq_none'] at hcon
      exact hsome ((unrealizedOf_none_iff _ f).mp hcon)
  · intro hne
    rw [htot, if_neg hne, foldl_unreal_sum, zero_add,
      rowsCompute_ok_unreal_filterMap snap _ rows hrows]

/-- C8 (amended): for every instrument in the PnL summary, when the raw
unrealized PnL is known the reported MTM PnL is the rounding of realized
plus unrealized; when it is unavailable the reported MTM PnL is null (the
code does not fall back to the numeric realized PnL), while realized and
unrealized are reported separately so callers can distinguish zero from
unknown. -/
theorem mtm_is_realized_plus_unrealized_or_null
    (trades : List Doc) (snap : Snapshot) (out : PnlOutput)
    (hok : calculate_mtm_pnl trades snap = .ok out) :
    ∀ i e, (i, e) ∈ out.results →
      ∃ g, g ∈ groupByInstrument trades ∧ g.1 = i ∧
        e.realized_pnl = round2 (rawRealized snap g) ∧
        e.unrealized_pnl = (rawUnrealized snap g).map round2 ∧
        e.mtm_pnl = (match rawUnrealized snap g with
          | none => none
          | some u => some (round2 (rawRealized snap g + u))) := by
  obtain ⟨rows, hrows, hres, htot⟩ := calculate_ok_inversion trades snap out hok
  intro i e hmem
  rw [hres] at hmem
  obtain ⟨x, hx, hxe⟩ := List.mem_map.mp hmem
  injection hxe with hi he
  obtain ⟨g, hgmem, hgi, hgok⟩ := rowsCompute_ok_mem snap _ rows hrows x hx
  obtain ⟨f, h1, h2, h3⟩ := instGroupCompute_ok snap g x.2 hgok
  subst he
  subst hi
  have hrr : rawRealized snap g = f.realized := by
    unfold rawRealized
    rw [hgok]
    exact h1
  have hru : rawUnrealized snap g = unrealizedOf (pnlLivePrice snap g.1) f := by
    unfold rawUnrealized
    rw [hgok]
    exact h2
  refine ⟨g, hgmem, hgi, ?_, ?_, ?_⟩
  · rw [h3, hrr]
  · rw [h3, hru]
  · rw [h3, hrr, hru]
    cases hu : unrealizedOf (pnlLivePrice snap g.1) f with
    | none => rfl
    | some u => simp [hu]


/-- Trade-book for the C7 witness: open longs on `I` (no live price) and on
`J` (live price 60). -/
def c7Trades : List Doc :=
  [pnlTrade "I" "buy" 10 100 "t1", pnlTrade "J" "buy" 2 50 "t1"]

/-- Snapshot for the C7 witness: only `J` has a live price. -/
def c7Snap : Snapshot := [("J", { price := some (RVal.num 60), timestamp := some "ts" })]

/-- The summary entry produced for `I` (no live price) on the witness input. -/
def c7EntryI : InstrumentPnl :=
  { realized_pnl := 0, unrealized_pnl := none, mtm_pnl := none,
    live_price := none, open_long_positions := [⟨100, 10⟩],
    open_short_positions := [] }

/-- The summary entry produced for `J` (live price 60) on the witness input. -/
def c7EntryJ : InstrumentPnl :=
  { realized_pnl := 0, unrealized_pnl := some 20, mtm_pnl := some 20,
    live_price := some 60, open_long_positions := [⟨50, 2⟩],
    open_short_positions := [] }

/-- The PnL summary `calculate_mtm_pnl` produces on the C7 witness input. -/
def c7Out : PnlOutput :=
  { results := [("I", c7EntryI), ("J", c7EntryJ)],
    total_realized_pnl := 0,
    total_unrealized_pnl := 20,
    overall_mtm_pnl := 20 }

/-- Witness for C7 on a book with one priced and one unpriced instrument. -/
theorem pnl_unrealized_null_vs_aggregate_witness :
    (∀ i e, (i, e) ∈ c7Out.results →
       (e.live_price = none → e.unrealized_pnl = none) ∧
       (e.live_price ≠ none → e.unrealized_pnl ≠ none)) ∧
    (groupByInstrument c7Trades ≠ [] →
       c7Out.total_unrealized_pnl =
         round2 (((groupByInstrument c7Trades).filterMap
           (fun g => rawUnrealized c7Snap g)).sum)) :=
  pnl_unrealized_null_vs_aggregate c7Trades c7Snap c7Out (by with_unfolding_all rfl)

/-- Witness for the amended C8: both entries of the same book, one with
unknown unrealized PnL (null MTM) and one with known unrealized PnL. -/
theorem mtm_is_realized_plus_unrealized_or_null_witness :
    (∃ g, g ∈ groupByInstrument c7Trades ∧ g.1 = "I" ∧
       c7EntryI.realized_pnl = round2 (rawRealized c7Snap g) ∧
       c7EntryI.unrealized_pnl = (rawUnrealized c7Snap g).map round2 ∧
       c7EntryI.mtm_pnl = (match rawUnrealized c7Snap g with
         | none => none
         | some u => some (round2 (rawRealized c7Snap g + u)))) ∧
    (∃ g, g ∈ groupByInstrument c7Trades ∧ g.1 = "J" ∧
       c7EntryJ.realized_pnl = round2 (rawRealized c7Snap g) ∧
       c7EntryJ.unrealized_pnl = (rawUnrealized c7Snap g).map round2 ∧
       c7EntryJ.mtm_pnl = (match rawUnrealized c7Snap g with
         | none => none
         | some u => some (round2 (rawRealized c7Snap g + u)))) :=
  ⟨mtm_is_realized_plus_unrealized_or_null c7Trades c7Snap c7Out
     (by with_unfolding_all rfl) "I" c7EntryI
     (by with_unfolding_all decide),
   mtm_is_realized_plus_unrealized_or_null c7Trades c7Snap c7Out
     (by with_unfolding_all rfl) "J" c7EntryJ
     (by with_unfolding_all decide)⟩

/-- Counterexample to C8 as stated: on an instrument with no live price the
reported per-instrument MTM PnL is null, not the numeric realized PnL (the
claim at this input would require `mtm_pnl = some (0 + 0)`). -/
theorem mtm_reported_null_cex :
    (calculate_mtm_pnl [pnlTrade "I" "buy" 10 100 "t1"] []).map
        (fun o => o.results.map (fun p => (p.1, p.2.realized_pnl, p.2.mtm_pnl)))
      = .ok [("I", 0, none)] ∧
    (calculate_mtm_pnl [pnlTrade "I" "buy" 10 100 "t1"] []).map
        (fun o => o.results.map (fun p => p.2.mtm_pnl))
      ≠ .ok [some (0 + 0)] :=
  ⟨by with_unfolding_all rfl, by with_unfolding_all decide⟩
/-- Under a snapshot with no non-numeric price field, every price parse the
re-check loop performs succeeds with the value `numValOf`. -/
lemma snapGet_price_ok (snap : Snapshot) (k : String) (e : SnapEntry)
    (hsnap : ∀ p ∈ snap, p.2.price ≠ some RVal.nonNum)
    (h : Snapshot.get snap k = some e) :
    floatField e.price = .ok (numValOf e.price) := by
  unfold Snapshot.get at h
  cases hf : snap.find? (fun p => p.1 = k) with
  | none => rw [hf] at h; cases h
  | some p =>
    rw [hf] at h
    have hmem := List.mem_of_find?_eq_some hf
    have hne := hsnap p hmem
    cases h
    cases hp : p.2.price with
    | none => simp [floatField, numValOf]
    | some v =>
      cases v with
      | num q => simp [floatField, numValOf]
      | nonNum => exact absurd hp hne

/-- Patching the first `P`-matching document, when `P` entails the pending
status, the patch clears it, and the only pending `P`-match is `o`, removes
exactly `o` from the pending view of the log collection. -/
lemma filter_updateFirst_pending
    (P : Doc → Bool) (patch : Doc → Doc)
    (hPimp : ∀ d, P d = true → pendingFilterb d = true)
    (hkill : ∀ d, pendingFilterb (patch d) = false) :
    ∀ (logs skipped os : List Doc) (o : Doc),
      logs.filter pendingFilterb = skipped ++ o :: os →
      P o = true →
      (∀ d ∈ skipped, P d = false) →
      (updateFirst P patch logs).filter pendingFilterb = skipped ++ os := by
  intro logs
  induction logs with
  | nil =>
    intro skipped os o h hPo hskip
    simp at h
  | cons d ds ih =>
    intro skipped os o h hPo hskip
    by_cases hPd : P d = true
    · have hpend : pendingFilterb d = true := hPimp d hPd
      rw [List.filter_cons_of_pos hpend] at h
      cases skipped with
      | nil =>
        simp only [List.nil_append] at h ⊢
        injection h with h1 h2
        subst h1
        rw [updateFirst, if_pos hPd, List.filter_cons_of_neg (by simp [hkill d])]
        exact h2
      | cons s ss =>
        simp only [List.cons_append] at h
        injection h with h1 h2
        subst h1
        have := hskip d (List.mem_cons_self d ss)
        rw [this] at hPd
        cases hPd
    · have hPd' : P d = false := by
        cases hPdv : P d with
        | true => exact absurd hPdv hPd
        | false => rfl
      by_cases hpd : pendingFilterb d = true
      · rw [List.filter_cons_of_pos hpd] at h
        cases skipped with
        | nil =>
          simp only [List.nil_append] at h
          injection h with h1 h2
          subst h1
          rw [hPo] at hPd'
          cases hPd'
        | cons s ss =>
          simp only [List.cons_append] at h
          injection h with h1 h2
          subst h1
          rw [updateFirst, if_neg (by simp [hPd']),
            List.filter_cons_of_pos hpd, List.cons_append]
          have hrec := ih ss os o h2 hPo
            (fun x hx => hskip x (List.mem_cons_of_mem _ hx))
          rw [hrec]
      · have hpd' : pendingFilterb d = false := by
          cases hv : pendingFilterb d with
          | true => exact absurd hv hpd
          | false => rfl
        rw [List.filter_cons_of_neg (by simp [hpd'])] at h
        rw [updateFirst, if_neg (by simp [hPd']),
          List.filter_cons_of_neg (by simp [hpd'])]
        exact ih skipped os o h hPo hskip

/-- A re-check pass over orders none of which is fillable leaves the store
untouched and fills nothing. -/
lemma pendingLoop_no_fill (snap : Snapshot) (now : String)
    (hsnap : ∀ p ∈ snap, p.2.price ≠ some RVal.nonNum) :
    ∀ (os : List Doc) (st : OMSState) (filled : List Doc),
      (∀ o ∈ os, fillableB snap o = false) →
      pendingLoop snap now os st filled = .ok (st, filled) := by
  intro os
  induction os with
  | nil => intro st filled h; rfl
  | cons o os ih =>
    intro st filled h
    have ho := h o (List.mem_cons_self o os)
    have hrest : ∀ x ∈ os, fillableB snap x = false :=
      fun x hx => h x (List.mem_cons_of_mem _ hx)
    cases hlook : Snapshot.get snap (o.instrument_id.getD "None") with
    | none =>
      simp only [pendingLoop, hlook]
      exact ih st filled hrest
    | some e =>
      cases htr : e.truthy with
      | false =>
        simp only [pendingLoop, hlook, htr, Bool.false_eq_true, if_false]
        exact ih st filled hrest
      | true =>
        have hff := snapGet_price_ok snap _ e hsnap hlook
        have hnotle : ¬ |numValOf e.price - o.order_price.getD 0| ≤ 1 := by
          intro hle
          simp only [fillableB, hlook, htr, Bool.true_and] at ho
          rw [decide_eq_true hle] at ho
          cases ho
        simp only [pendingLoop, hlook, htr, if_true, hff]
        rw [if_neg hnotle]
        exact ih st filled hrest

/-- Characterization of one re-check pass: it succeeds, and the pending
view of the log collection afterwards consists of the previously skipped
orders plus exactly the unfillable ones of the processed list. -/
lemma pendingLoop_spec (snap : Snapshot) (now : String)
    (hsnap : ∀ p ∈ snap, p.2.price ≠ some RVal.nonNum) :
    ∀ (os : List Doc) (st : OMSState) (filled skipped : List Doc),
      st.logs.filter pendingFilterb = skipped ++ os →
      List.Pairwise (fun a b => docKey a ≠ docKey b) (skipped ++ os) →
      (∀ o ∈ skipped, fillableB snap o = false) →
      ∃ st2 nf,
        pendingLoop snap now os st filled = .ok (st2, filled ++ nf) ∧
        st2.logs.filter pendingFilterb =
          skipped ++ os.filter (fun x => !fillableB snap x) := by
  intro os
  induction os with
  | nil =>
    intro st filled skipped h hpw hskip
    refine ⟨st, [], by rw [List.append_nil]; rfl, by simpa using h⟩
  | cons o os ih =>
    intro st filled skipped h hpw hskip
    have hcommon : fillableB snap o = false →
        ∃ st2 nf,
          pendingLoop snap now os st filled = .ok (st2, filled ++ nf) ∧
          st2.logs.filter pendingFilterb =
            skipped ++ (o :: os).filter (fun x => !fillableB snap x) := by
      intro hfb
      have h' : st.logs.filter pendingFilterb = (skipped ++ [o]) ++ os := by
        rw [h, List.append_cons]
      have hpw' : List.Pairwise (fun a b => docKey a ≠ docKey b)
          ((skipped ++ [o]) ++ os) := by
        rw [← List.append_cons]
        exact hpw
      have hskip' : ∀ d ∈ skipped ++ [o], fillableB snap d = false := by
        intro d hd
        rcases List.mem_append.mp hd with hd1 | hd2
        · exact hskip d hd1
        · rw [List.mem_singleton.mp hd2]
          exact hfb
      obtain ⟨st2, nf, h1, h2⟩ := ih st filled (skipped ++ [o]) h' hpw' hskip'
      refine ⟨st2, nf, h1, ?_⟩
      rw [List.filter_cons_of_pos (by simp [hfb]), h2]
      simp
    cases hlook : Snapshot.get snap (o.instrument_id.getD "None") with
    | none =>
      have hfb : fillableB snap o = false := by simp [fillableB, hlook]
      obtain ⟨st2, nf, h1, h2⟩ := hcommon hfb
      refine ⟨st2, nf, ?_, h2⟩
      simp only [pendingLoop, hlook]
      exact h1
    | some e =>
      cases htr : e.truthy with
      | false =>
        have hfb : fillableB snap o = false := by simp [fillableB, hlook, htr]
        obtain ⟨st2, nf, h1, h2⟩ := hcommon hfb
        refine ⟨st2, nf, ?_, h2⟩
        simp only [pendingLoop, hlook, htr, Bool.false_eq_true, if_false]
        exact h1
      | true =>
        have hff := snapGet_price_ok snap _ e hsnap hlook
        by_cases hle : |numValOf e.price - o.order_price.getD 0| ≤ 1
        · -- the order fills
          have homem : o ∈ st.logs.filter pendingFilterb := by
            rw [h]
            exact List.mem_append_right _ (List.mem_cons_self o os)
          have hopend : pendingFilterb o = true := List.of_mem_filter homem
          have hofb : fillableB snap o = true := by
            simp [fillableB, hlook, htr, hle]
          have hPo : (fun d => d.instrument_id == o.instrument_id &&
              d.order_placement_time == o.order_placement_time &&
              d.status == some "price not matched") o = true := by
            simp only [Bool.and_eq_true, beq_self_eq_true, true_and]
            exact hopend
          have hskipP : ∀ d ∈ skipped,
              (fun d => d.instrument_id == o.instrument_id &&
                d.order_placement_time == o.order_placement_time &&
                d.status == some "price not matched") d = false := by
            intro d hd
            have hkey : docKey d ≠ docKey o := by
              have := (List.pairwise_append.mp hpw).2.2
              exact this d hd o (List.mem_cons_self o os)
            cases hv : (fun d => d.instrument_id == o.instrument_id &&
                d.order_placement_time == o.order_placement_time &&
                d.status == some "price not matched") d with
            | false => rfl
            | true =>
              simp only [Bool.and_eq_true, beq_iff_eq] at hv
              exact absurd (by unfold docKey; rw [hv.1.1, hv.1.2]) hkey
          have hupd := filter_updateFirst_pending
            (fun d => d.instrument_id == o.instrument_id &&
              d.order_placement_time == o.order_placement_time &&
              d.status == some "price not matched")
            (fun d =>
              { d with
                status := some "filled",
                order_execution_time := some now,
                order_placement_price := some (numValOf e.price) })
            (by
              intro d hd
              simp only [Bool.and_eq_true] at hd
              exact hd.2)
            (by
              intro d
              simp [pendingFilterb])
            st.logs skipped os o h hPo hskipP
          have hpw' : List.Pairwise (fun a b => docKey a ≠ docKey b)
              (skipped ++ os) := by
            refine hpw.sublist ?_
            exact (List.sublist_cons_self o os).append_left skipped
          obtain ⟨st2, nf, h1, h2⟩ := ih
            { book := st.book ++ [{ Doc.empty with
                instrument_id := o.instrument_id,
                order_placement_time := o.order_placement_time,
                order_execution_time := some now,
                order_placement_price := some (numValOf e.price),
                order_price := some (o.order_price.getD 0),
                order_side := o.order_side,
                stop_loss := o.stop_loss }],
              logs := updateFirst
                (fun d => d.instrument_id == o.instrument_id &&
                  d.order_placement_time == o.order_placement_time &&
                  d.status == some "price not matched")
                (fun d =>
                  { d with
                    status := some "filled",
                    order_execution_time := some now,
                    order_placement_price := some (numValOf e.price) })
                st.logs }
            (filled ++ [{ o with
              status := some "filled",
              order_execution_time := some now }])
            skipped hupd hpw' hskip
          refine ⟨st2, [{ o with
              status := some "filled",
              order_execution_time := some now }] ++ nf, ?_, ?_⟩
          · simp only [pendingLoop, hlook, htr, if_true, hff]
            rw [if_pos hle, ← List.append_assoc]
            exact h1
          · rw [h2, List.filter_cons_of_neg (by simp [hofb])]
        · -- within lookup but outside tolerance: no fill
          have hfb : fillableB snap o = false := by
            simp [fillableB, hlook, htr, hle]
          obtain ⟨st2, nf, h1, h2⟩ := hcommon hfb
          refine ⟨st2, nf, ?_, h2⟩
          simp only [pendingLoop, hlook, htr, if_true, hff]
          rw [if_neg hle]
          exact h1

/-- C5: running the pending-order re-check twice in succession with no
price change between the runs fills each eligible order exactly once: the
first run returns a state on which the second run is a no-op (same state,
no orders filled), because a fill updates the existing log record in place
to status "filled" rather than creating a new pending record.  The
hypotheses: the snapshot has no non-numeric price field (the unguarded
`float` call in the loop would otherwise raise), and the pending log
records have pairwise-distinct (instrument, placement-time) keys (the
`update_one` filter identifies records by that key). -/
theorem pending_recheck_idempotent
    (snap : Snapshot) (st : OMSState) (now1 now2 : String)
    (hsnap : ∀ p ∈ snap, p.2.price ≠ some RVal.nonNum)
    (hkeys : List.Pairwise (fun a b => docKey a ≠ docKey b)
      (st.logs.filter pendingFilterb)) :
    ∃ r1 st1 r2,
      pending_list_orders snap st now1 = .ok (r1, st1) ∧
      pending_list_orders snap st1 now2 = .ok (r2, st1) ∧
      r2.orders = [] := by
  by_cases hemp : st.logs.filter pendingFilterb = []
  · refine ⟨{ status := "no pending orders to check", orders := [] }, st,
      { status := "no pending orders to check", orders := [] }, ?_, ?_, rfl⟩
    · simp only [pending_list_orders]
      rw [if_pos hemp]
    · simp only [pending_list_orders]
      rw [if_pos hemp]
  · obtain ⟨st2, nf, hloop, hfilt⟩ := pendingLoop_spec snap now1 hsnap
      (st.logs.filter pendingFilterb) st [] [] (by simp) (by simpa using hkeys)
      (by simp)
    have hall2 : ∀ o ∈ st2.logs.filter pendingFilterb, fillableB snap o = false := by
      intro o hox
      rw [hfilt] at hox
      simp only [List.nil_append] at hox
      have := List.of_mem_filter hox
      simpa using this
    have hsecond : ∃ r2, pending_list_orders snap st2 now2 = .ok (r2, st2) ∧
        r2.orders = [] := by
      by_cases hemp2 : st2.logs.filter pendingFilterb = []
      · refine ⟨{ status := "no pending orders to check", orders := [] }, ?_, rfl⟩
        simp only [pending_list_orders]
        rw [if_pos hemp2]
      · refine ⟨{ status := "no order has been filled", orders := [] }, ?_, rfl⟩
        have hnofill := pendingLoop_no_fill snap now2 hsnap
          (st2.logs.filter pendingFilterb) st2 [] hall2
        simp only [pending_list_orders]
        rw [if_neg hemp2]
        simp only [hnofill]
        simp
    obtain ⟨r2, hr2, hr2o⟩ := hsecond
    by_cases hnf : nf = []
    · refine ⟨{ status := "no order has been filled", orders := [] }, st2, r2,
        ?_, hr2, hr2o⟩
      simp only [pending_list_orders]
      rw [if_neg hemp]
      simp only [hloop, List.nil_append, hnf]
      simp
    · refine ⟨{ status := "order(s) filled", orders := nf }, st2, r2, ?_, hr2, hr2o⟩
      simp only [pending_list_orders]
      rw [if_neg hemp]
      simp only [hloop, List.nil_append]
      rw [if_neg hnf]

/-- A pending (price-not-matched) log record for `I1` at requested price 100,
now fillable against the witness snapshot. -/
def c5PendA : Doc :=
  { Doc.empty with
    instrument_id := some "I1",
    order_placement_time := some "T1",
    order_placement_price := some 98,
    order_price := some 100,
    order_side := some "buy",
    status := some "price not matched" }

/-- A pending log record for `I2` at requested price 50, still outside
tolerance against the witness snapshot. -/
def c5PendB : Doc :=
  { Doc.empty with
    instrument_id := some "I2",
    order_placement_time := some "T2",
    order_placement_price := some 80,
    order_price := some 50,
    order_side := some "buy",
    status := some "price not matched" }

/-- Store state for the C5 witness: two pending log records, empty book. -/
def c5St : OMSState := { book := [], logs := [c5PendA, c5PendB] }

/-- Snapshot for the C5 witness: `I1` at 100 (within tolerance of the
pending 100), `I2` at 80 (outside tolerance of the pending 50). -/
def c5Snap : Snapshot :=
  [("I1", { price := some (RVal.num 100), timestamp := some "ts" }),
   ("I2", { price := some (RVal.num 80), timestamp := some "ts" })]

/-- Witness for C5: two runs of the re-check over the concrete store. -/
theorem pending_recheck_idempotent_witness :
    ∃ r1 st1 r2,
      pending_list_orders c5Snap c5St "N1" = .ok (r1, st1) ∧
      pending_list_orders c5Snap st1 "N2" = .ok (r2, st1) ∧
      r2.orders = [] :=
  pending_recheck_idempotent c5Snap c5St "N1" "N2"
    (by with_unfolding_all decide) (by with_unfolding_all decide)
